import Mathlib

/-!
Shallow embedding of the CPC client library (`lib/sl_cpc.c`) of the cpc-daemon
repository.  Each C function is translated into a pure Lean function: the
results of the system calls it performs (send, recv, connect, malloc, fcntl,
...) are supplied through an explicit environment record, and the Lean function
computes the value the C function returns together with the externally visible
actions it performs (errno assignments, state updates, socket operations).
Machine integers are modelled with `Nat`/`Int`; `ssize_t` results of syscalls
are `Int`.
-/

set_option autoImplicit false

namespace Cpc

/-- Errno values the library assigns explicitly.  A result field of type
`Option Errno` records the value the library itself stores into `errno`
(`none` means the library leaves errno to whatever the failing syscall set). -/
inductive Errno where
  | EINVAL
  | ERANGE
  | ENOMEM
  | ECONNRESET
  | ELIBBAD
  | EAGAIN
  | EPERM
deriving DecidableEq, Repr

/-- Message types of the control-socket exchange protocol
(`server_core/cpcd_exchange.h`; the spec lists the same six types). -/
inductive ExchangeType where
  | endpointStatusQuery
  | openEndpointQuery
  | maxWriteSizeQuery
  | versionQuery
  | closeEndpointQuery
  | setPidQuery
deriving DecidableEq, Repr

/-- Size in bytes of `cpcd_exchange_buffer_t`: a `type` byte and an
`endpoint_number` byte followed by a flexible payload array
(spec section 6: a message is a type u8, endpoint u8, payload structure). -/
def sizeof_cpcd_exchange_buffer : Nat := 2

/-- `CPC_LIBRARY_API_VERSION` is "2" in the repository's CMakeLists.txt, which
generates `version.h`, so `LIBRARY_API_VERSION` is 2. -/
def LIBRARY_API_VERSION : Nat := 2

/-- `DEFAULT_ENDPOINT_SOCKET_SIZE` in sl_cpc.c. -/
def DEFAULT_ENDPOINT_SOCKET_SIZE : Nat := 4087

/-- `DEFAULT_SOCKET_FOLDER` in sl_cpc.c. -/
def DEFAULT_SOCKET_FOLDER : String := "/dev/shm"

/-- `DEFAULT_INSTANCE_NAME` in sl_cpc.c. -/
def DEFAULT_INSTANCE_NAME : String := "cpcd_0"

/-- `sizeof(((struct sockaddr_un*)0)->sun_path)` on Linux. -/
def SUN_PATH_SIZE : Nat := 108

/-- Security endpoint id (spec glossary: endpoint 14 carries handshake
traffic and cannot be opened by user clients). -/
def SL_CPC_ENDPOINT_SECURITY : Nat := 14

/-- Modelled from the spec: `SL_CPC_READ_MINIMUM_SIZE` is declared in the
public header `lib/sl_cpc.h`, which is not among the provided sources.  The
spec fixes 4087 bytes as the largest payload one frame can carry, so a read
buffer must provide at least that much room. -/
def SL_CPC_READ_MINIMUM_SIZE : Nat := 4087

/-- `O_NONBLOCK` on Linux (octal 04000). -/
def O_NONBLOCK : Nat := 2048

/-- Bit mask `~O_NONBLOCK` on a 32-bit `int`, used by
`flags &= ~O_NONBLOCK` in `cpc_set_endpoint_option`. -/
def NOT_O_NONBLOCK : Nat := 4294967295 - O_NONBLOCK

/-- sizeof(bool) in the option interface of the C library. -/
def sizeof_bool : Nat := 1

/-- sizeof(int). -/
def sizeof_int : Nat := 4

/-- sizeof(cpc_timeval_t): two C ints. -/
def sizeof_cpc_timeval : Nat := 8

/-- sizeof(pid_t). -/
def sizeof_pid : Nat := 4

/-- The daemon-side handle `sli_cpc_handle_t` (the fields the claims need:
`max_write_size` as obtained from the daemon during init). -/
structure LibHandle where
  max_write_size : Nat
deriving DecidableEq, Repr

/-- The endpoint object `sli_cpc_endpoint_t`: endpoint id, its socket fd and
the owning library handle. -/
structure EndpointState where
  id : Nat
  sock_fd : Int
  lib_handle : LibHandle
deriving DecidableEq, Repr

/-- The library's global variables in sl_cpc.c: `saved_enable_tracing`,
`saved_instance_name` and `saved_reset_callback`.  A callback pointer is
modelled as an abstract identifier (`Option Nat`, `none` = NULL). -/
structure LibGlobals where
  saved_enable_tracing : Bool
  saved_instance_name : Option String
  saved_reset_callback : Option Nat
deriving DecidableEq, Repr

/-! ### Control-socket exchange helpers -/

/-- Syscall outcomes for one send/recv exchange on the control socket, plus
the version byte found in the reply payload. -/
structure CtrlExchangeIO where
  sendRet : Int
  recvRet : Int
  replyVersion : Nat
deriving DecidableEq, Repr

/-- Result of `check_version`. -/
structure CheckVersionResult where
  ok : Bool
  errnoSet : Option Errno
deriving DecidableEq, Repr

/-- `sizeof(cpcd_exchange_buffer_t) + sizeof(uint8_t)` in `check_version`. -/
def version_query_len : Nat := sizeof_cpcd_exchange_buffer + 1

/-- Model of `check_version` (sl_cpc.c lines 173-207). -/
def check_version (io : CtrlExchangeIO) : CheckVersionResult :=
  if io.sendRet < (version_query_len : Int) then
    { ok := false, errnoSet := none }
  else if io.recvRet ≠ (version_query_len : Int) then
    { ok := false
      errnoSet := if io.recvRet = 0 then some Errno.ECONNRESET else none }
  else if io.replyVersion ≠ LIBRARY_API_VERSION then
    { ok := false, errnoSet := some Errno.ELIBBAD }
  else
    { ok := true, errnoSet := none }

/-- Syscall outcomes for the max-write-size exchange, plus the `uint32_t`
value found in the reply payload. -/
structure MaxWriteIO where
  sendRet : Int
  recvRet : Int
  replyMaxWrite : Nat
deriving DecidableEq, Repr

/-- Result of `get_max_write`. -/
structure GetMaxWriteResult where
  ret : Int
  errnoSet : Option Errno
deriving DecidableEq, Repr

/-- `sizeof(cpcd_exchange_buffer_t) + sizeof(uint32_t)` in `get_max_write`. -/
def max_write_query_len : Nat := sizeof_cpcd_exchange_buffer + 4

/-- Model of `get_max_write` (sl_cpc.c lines 138-171). -/
def get_max_write (io : MaxWriteIO) : GetMaxWriteResult :=
  if io.sendRet < (max_write_query_len : Int) then
    { ret := -1, errnoSet := none }
  else if io.recvRet ≠ (max_write_query_len : Int) then
    { ret := -1
      errnoSet := if io.recvRet = 0 then some Errno.ECONNRESET else none }
  else
    { ret := (io.replyMaxWrite : Int), errnoSet := none }

/-- `sizeof(cpcd_exchange_buffer_t) + sizeof(pid_t)` in `set_pid`. -/
def set_pid_query_len : Nat := sizeof_cpcd_exchange_buffer + sizeof_pid

/-- Model of `set_pid` (sl_cpc.c lines 209-230): returns 0 when the full
query was written, -1 otherwise. -/
def set_pid (sendRet : Int) : Int :=
  if sendRet < (set_pid_query_len : Int) then -1 else 0

/-! ### cpc_read_endpoint -/

/-- Syscall outcome for the `recv` in `cpc_read_endpoint`:
the number of bytes received, 0 on orderly shutdown (EOF), -1 on error. -/
structure ReadEnv where
  recvRet : Int
deriving DecidableEq, Repr

/-- Result of `cpc_read_endpoint`: the return value, the errno the library
assigns, and whether `recv` was called at all. -/
structure ReadResult where
  ret : Int
  errnoSet : Option Errno
  recvCalled : Bool
deriving DecidableEq, Repr

/-- Model of `cpc_read_endpoint` (sl_cpc.c lines 716-751).
`bufferNull` is whether the user buffer is NULL, `count` the buffer size,
`ep` the contents of `endpoint.ptr` (`none` = NULL), `nonblockFlag` whether
`SL_CPC_FLAG_NON_BLOCK` was passed (it only changes the recv flags). -/
def cpc_read_endpoint (ep : Option EndpointState) (bufferNull : Bool)
    (count : Nat) (_nonblockFlag : Bool) (env : ReadEnv) : ReadResult :=
  if bufferNull ∨ count < SL_CPC_READ_MINIMUM_SIZE ∨ ep = none then
    { ret := -1, errnoSet := some Errno.EINVAL, recvCalled := false }
  else if env.recvRet = 0 then
    { ret := -1, errnoSet := some Errno.ECONNRESET, recvCalled := true }
  else if env.recvRet < 0 then
    { ret := -1, errnoSet := none, recvCalled := true }
  else
    { ret := env.recvRet, errnoSet := none, recvCalled := true }

/-! ### cpc_write_endpoint -/

/-- Result of `cpc_write_endpoint`: return value, errno assigned by the
library, and whether `send` was called. -/
structure WriteResult where
  ret : Int
  errnoSet : Option Errno
  sendCalled : Bool
deriving DecidableEq, Repr

/-- Model of `cpc_write_endpoint` (sl_cpc.c lines 756-799).  `sendRet` is the
outcome `send` would yield if it is reached. -/
def cpc_write_endpoint (ep : Option EndpointState) (dataNull : Bool)
    (data_length : Nat) (_nonblockFlag : Bool) (sendRet : Int) : WriteResult :=
  match ep with
  | none => { ret := -1, errnoSet := some Errno.EINVAL, sendCalled := false }
  | some e =>
    if dataNull ∨ data_length = 0 then
      { ret := -1, errnoSet := some Errno.EINVAL, sendCalled := false }
    else if data_length > e.lib_handle.max_write_size then
      { ret := -1, errnoSet := some Errno.EINVAL, sendCalled := false }
    else if sendRet = -1 then
      { ret := -1, errnoSet := none, sendCalled := true }
    else
      { ret := sendRet, errnoSet := none, sendCalled := true }

/-! ### cpc_init -/

/-- The control socket path built by `cpc_init`:
`DEFAULT_SOCKET_FOLDER "/cpcd/%s/ctrl.cpcd.sock"` with the saved instance
name substituted. -/
def ctrl_sock_path (name : String) : String :=
  DEFAULT_SOCKET_FOLDER ++ "/cpcd/" ++ name ++ "/ctrl.cpcd.sock"

/-- Syscall outcomes consumed by one run of `cpc_init`. -/
structure InitEnv where
  strdupOk : Bool
  accessOk : Bool
  mallocOk : Bool
  socketFd : Int
  connectOk : Bool
  setsockoptOk : Bool
  setPidSendRet : Int
  maxWriteIO : MaxWriteIO
  versionIO : CtrlExchangeIO
  mutexInitOk : Bool
deriving DecidableEq, Repr

/-- Result of `cpc_init`: return value, errno the library assigns, the global
variables after the call, the `sli_cpc_handle_t` stored into `handle.ptr`
(`none` when init failed), the path passed to `connect` (`none` when connect
was never reached) and whether a SIGUSR1 handler was registered. -/
structure InitResult where
  ret : Int
  errnoSet : Option Errno
  globals : LibGlobals
  handle : Option LibHandle
  connectPath : Option String
  signalRegistered : Bool
deriving DecidableEq, Repr

/-- Failure result helper for `cpc_init`. -/
def initFail (g : LibGlobals) (e : Option Errno) (sig : Bool)
    (cp : Option String) : InitResult :=
  { ret := -1, errnoSet := e, globals := g, handle := none,
    connectPath := cp, signalRegistered := sig }

/-- Continuation of `cpc_init` after the instance name has been saved
(sl_cpc.c lines 282-374): build the control socket path, register the
SIGUSR1 handler if a reset callback was given, then connect and run the
`set_pid`, `get_max_write` and `check_version` exchanges. -/
def cpc_init_after_name (g : LibGlobals) (env : InitEnv) (handleNull : Bool)
    (reset_callback : Option Nat) (name : String) : InitResult :=
  let path := ctrl_sock_path name
  if path.length ≥ SUN_PATH_SIZE - 1 then
    initFail g (some Errno.ERANGE) false none
  else
    let sig := reset_callback.isSome
    if handleNull then
      initFail g (some Errno.EINVAL) sig none
    else if ¬ env.accessOk then
      initFail g none sig none
    else if ¬ env.mallocOk then
      initFail g (some Errno.ENOMEM) sig none
    else if env.socketFd = 0 then
      initFail g none sig none
    else if ¬ env.connectOk then
      initFail g none sig (some path)
    else if ¬ env.setsockoptOk then
      initFail g none sig (some path)
    else if set_pid env.setPidSendRet < 0 then
      initFail g none sig (some path)
    else
      let mw := get_max_write env.maxWriteIO
      if mw.ret < 0 then
        initFail g mw.errnoSet sig (some path)
      else
        let cv := check_version env.versionIO
        if ¬ cv.ok then
          initFail g cv.errnoSet sig (some path)
        else if ¬ env.mutexInitOk then
          initFail g none sig (some path)
        else
          { ret := 0, errnoSet := none, globals := g,
            handle := some { max_write_size := mw.ret.toNat },
            connectPath := some path, signalRegistered := sig }

/-- Model of `cpc_init` (sl_cpc.c lines 245-374).  `handleNull` is whether the
`handle` out-parameter is NULL; `instance_name` is the argument
(`none` = NULL); `g` holds the global variables before the call. -/
def cpc_init (g : LibGlobals) (env : InitEnv) (handleNull : Bool)
    (instance_name : Option String) (enable_tracing : Bool)
    (reset_callback : Option Nat) : InitResult :=
  let g1 : LibGlobals :=
    { g with saved_enable_tracing := enable_tracing,
             saved_reset_callback := reset_callback }
  match g1.saved_instance_name with
  | none =>
    if env.strdupOk then
      let name := instance_name.getD DEFAULT_INSTANCE_NAME
      cpc_init_after_name { g1 with saved_instance_name := some name }
        env handleNull reset_callback name
    else
      initFail g1 (some Errno.ENOMEM) false none
  | some name =>
    cpc_init_after_name g1 env handleNull reset_callback name

/-! ### SIGUSR1 handler and cpc_restart -/

/-- Model of `SIGUSR1_handler` (sl_cpc.c lines 232-239): returns the callback
that gets invoked (`none` when `saved_reset_callback` is NULL and nothing is
invoked). -/
def SIGUSR1_handler (g : LibGlobals) : Option Nat :=
  g.saved_reset_callback

/-- Syscall outcomes consumed by one run of `cpc_restart`: the `close` and
`pthread_mutex_destroy` results and an `InitEnv` for each of the five
re-init attempts. -/
structure RestartEnv where
  closeOk : Bool
  mutexDestroyOk : Bool
  attempt1 : InitEnv
  attempt2 : InitEnv
  attempt3 : InitEnv
  attempt4 : InitEnv
  attempt5 : InitEnv
deriving DecidableEq, Repr

/-- Result of `cpc_restart`: return value, errno the library assigns, the
globals after the call, the handle contents stored on success, and the
number of `sleep(1)` calls performed. -/
structure RestartResult where
  ret : Int
  errnoSet : Option Errno
  globals : LibGlobals
  handle : Option LibHandle
  sleeps : Nat
deriving DecidableEq, Repr

/-- The retry loop of `cpc_restart` (sl_cpc.c lines 410-418): for each
attempt, sleep one second then call `cpc_init` on the saved parameters;
stop at the first attempt that returns 0.  Returns the final `ret`, the
final globals, the handle stored by the last attempt, and the number of
sleeps. -/
def restart_loop : LibGlobals → List InitEnv →
    Int × LibGlobals × Option LibHandle × Nat
  | g, [] => (0, g, none, 0)
  | g, e :: rest =>
    let r := cpc_init g e false g.saved_instance_name g.saved_enable_tracing
      g.saved_reset_callback
    if r.ret = 0 ∨ rest.isEmpty then
      (r.ret, r.globals, r.handle, 1)
    else
      let p := restart_loop r.globals rest
      (p.1, p.2.1, p.2.2.1, p.2.2.2 + 1)

/-- Model of `cpc_restart` (sl_cpc.c lines 382-421).  `handlePtr` is the
contents of `handle->ptr` before the call. -/
def cpc_restart (g : LibGlobals) (handlePtr : Option LibHandle)
    (env : RestartEnv) : RestartResult :=
  match handlePtr with
  | none =>
    { ret := -1, errnoSet := some Errno.EINVAL, globals := g,
      handle := none, sleeps := 0 }
  | some h =>
    if ¬ env.closeOk then
      { ret := -1, errnoSet := some Errno.EINVAL, globals := g,
        handle := some h, sleeps := 0 }
    else if ¬ env.mutexDestroyOk then
      { ret := -1, errnoSet := some Errno.EINVAL, globals := g,
        handle := some h, sleeps := 0 }
    else
      let p := restart_loop g
        [env.attempt1, env.attempt2, env.attempt3, env.attempt4, env.attempt5]
      { ret := p.1, errnoSet := none, globals := p.2.1,
        handle := p.2.2.1, sleeps := p.2.2.2 }

/-! ### cpc_open_endpoint -/

/-- The endpoint socket path built by `cpc_open_endpoint`:
`DEFAULT_SOCKET_FOLDER "/cpcd/%s/ep%d.cpcd.sock"` with the saved instance
name and the endpoint id substituted. -/
def ep_sock_path (name : String) (id : Nat) : String :=
  DEFAULT_SOCKET_FOLDER ++ "/cpcd/" ++ name ++ "/ep" ++ toString id
    ++ ".cpcd.sock"

/-- Syscall outcomes consumed by one run of `cpc_open_endpoint`. -/
structure OpenEnv where
  mallocEpOk : Bool
  mallocQueryOk : Bool
  mutexLockOk : Bool
  ctrlSendRet : Int
  ctrlRecvRet : Int
  mutexUnlockOk : Bool
  canOpenReply : Bool
  socketFd : Int
  connectOk : Bool
  ackRecvRet : Int
  ackType : ExchangeType
  setsockoptOk : Bool
  mutexInitOk : Bool
deriving DecidableEq, Repr

/-- Result of `cpc_open_endpoint`: return value (the endpoint socket fd on
success, -1 on failure), errno the library assigns, the endpoint object
stored into `endpoint->ptr` on success, the path passed to `connect` on the
endpoint socket, whether the endpoint socket was closed again before
returning, and the value installed as the SO_SNDBUF size of the endpoint
socket. -/
structure OpenResult where
  ret : Int
  errnoSet : Option Errno
  endpointSet : Option EndpointState
  connectPath : Option String
  epSocketClosed : Bool
  sndbufSet : Option Nat
deriving DecidableEq, Repr

/-- Failure result helper for `cpc_open_endpoint`. -/
def openFail (e : Option Errno) (cp : Option String) (closed : Bool)
    (sndbuf : Option Nat) : OpenResult :=
  { ret := -1, errnoSet := e, endpointSet := none, connectPath := cp,
    epSocketClosed := closed, sndbufSet := sndbuf }

/-- `sizeof(cpcd_exchange_buffer_t) + sizeof(bool)` in `cpc_open_endpoint`. -/
def open_query_len : Nat := sizeof_cpcd_exchange_buffer + sizeof_bool

/-- Model of `cpc_open_endpoint` (sl_cpc.c lines 429-611).  `handlePtr` is
the contents of `handle.ptr`, `endpointNull` whether the `endpoint`
out-parameter is NULL, `name` the saved instance name used by the path
`snprintf`, `id` and `tx_window_size` the remaining arguments. -/
def cpc_open_endpoint (handlePtr : Option LibHandle) (endpointNull : Bool)
    (name : String) (id : Nat) (tx_window_size : Nat)
    (env : OpenEnv) : OpenResult :=
  if (ep_sock_path name id).length ≥ SUN_PATH_SIZE - 1 then
    openFail (some Errno.ERANGE) none false none
  else if tx_window_size ≠ 1 then
    openFail (some Errno.EINVAL) none false none
  else if id = 0 ∨ endpointNull ∨ handlePtr = none then
    openFail (some Errno.EINVAL) none false none
  else
    match handlePtr with
    | none => openFail (some Errno.EINVAL) none false none
    | some lib_handle =>
      if ¬ env.mallocEpOk then
        openFail (some Errno.ENOMEM) none false none
      else if ¬ env.mallocQueryOk then
        openFail none none false none
      else if ¬ env.mutexLockOk then
        openFail none none false none
      else if env.ctrlSendRet < (open_query_len : Int) then
        openFail none none false none
      else if ¬ env.mutexUnlockOk then
        openFail none none false none
      else if env.ctrlRecvRet ≠ (open_query_len : Int) then
        openFail (if env.ctrlRecvRet = 0 then some Errno.ECONNRESET else none)
          none false none
      else if ¬ env.canOpenReply then
        openFail (if id = SL_CPC_ENDPOINT_SECURITY then some Errno.EPERM
          else some Errno.EAGAIN) none false none
      else if env.socketFd = 0 then
        openFail none none false none
      else if ¬ env.connectOk then
        openFail none (some (ep_sock_path name id)) true none
      else if env.ackRecvRet ≠ (sizeof_cpcd_exchange_buffer : Int)
          ∨ env.ackType ≠ ExchangeType.openEndpointQuery then
        openFail (if env.ackRecvRet = 0 then some Errno.ECONNRESET else none)
          (some (ep_sock_path name id)) true none
      else if ¬ env.setsockoptOk then
        openFail none (some (ep_sock_path name id)) true (some DEFAULT_ENDPOINT_SOCKET_SIZE)
      else if ¬ env.mutexInitOk then
        openFail none (some (ep_sock_path name id)) true (some DEFAULT_ENDPOINT_SOCKET_SIZE)
      else
        { ret := env.socketFd, errnoSet := none,
          endpointSet := some
            { id := id, sock_fd := env.socketFd, lib_handle := lib_handle },
          connectPath := some (ep_sock_path name id), epSocketClosed := false,
          sndbufSet := some DEFAULT_ENDPOINT_SOCKET_SIZE }

/-! ### cpc_close_endpoint -/

/-- Syscall outcomes consumed by one run of `cpc_close_endpoint`. -/
structure CloseEnv where
  closeOk : Bool
  mutexLockOk : Bool
  sendRet : Int
  recvRet : Int
  mutexUnlockOk : Bool
  mutexDestroyOk : Bool
deriving DecidableEq, Repr

/-- Result of `cpc_close_endpoint`: return value, errno the library assigns,
the contents of `endpoint->ptr` after the call, and whether a close request
was sent to the daemon over the control socket. -/
structure CloseResult where
  ret : Int
  errnoSet : Option Errno
  endpointPtr : Option EndpointState
  closeRequestSent : Bool
deriving DecidableEq, Repr

/-- `sizeof(cpcd_exchange_buffer_t)` in `cpc_close_endpoint`. -/
def close_query_len : Nat := sizeof_cpcd_exchange_buffer

/-- Model of `cpc_close_endpoint` (sl_cpc.c lines 617-706).  `endpointNull`
is whether the `endpoint` argument itself is NULL and `ep` the contents of
`endpoint->ptr` before the call. -/
def cpc_close_endpoint (endpointNull : Bool) (ep : Option EndpointState)
    (env : CloseEnv) : CloseResult :=
  if endpointNull then
    { ret := -1, errnoSet := some Errno.EINVAL, endpointPtr := ep,
      closeRequestSent := false }
  else
    match ep with
    | none =>
      { ret := -1, errnoSet := some Errno.EINVAL, endpointPtr := none,
        closeRequestSent := false }
    | some _ =>
      if ¬ env.closeOk then
        { ret := -1, errnoSet := none, endpointPtr := none,
          closeRequestSent := false }
      else if ¬ env.mutexLockOk then
        { ret := -1, errnoSet := none, endpointPtr := none,
          closeRequestSent := false }
      else if env.sendRet < 0 ∨ env.sendRet < (close_query_len : Int) then
        { ret := -1, errnoSet := none, endpointPtr := none,
          closeRequestSent := true }
      else if ¬ env.mutexUnlockOk then
        { ret := -1, errnoSet := none, endpointPtr := none,
          closeRequestSent := true }
      else if env.recvRet ≠ (close_query_len : Int) then
        { ret := -1,
          errnoSet := if env.recvRet = 0 then some Errno.ECONNRESET else none,
          endpointPtr := none, closeRequestSent := true }
      else if ¬ env.mutexDestroyOk then
        { ret := -1, errnoSet := none, endpointPtr := none,
          closeRequestSent := true }
      else
        { ret := 0, errnoSet := none, endpointPtr := none,
          closeRequestSent := true }

/-! ### cpc_set_endpoint_option and cpc_get_endpoint_option -/

/-- The `cpc_option_t` enumeration. -/
inductive CpcOption where
  | optionNone
  | rxTimeout
  | txTimeout
  | blocking
  | socketSize
  | maxWriteSize
deriving DecidableEq, Repr

/-- Syscall outcomes consumed by `cpc_set_endpoint_option`. -/
structure SetOptEnv where
  setsockoptOk : Bool
  mutexLockOk : Bool
  fcntlGetOk : Bool
  fcntlSetOk : Bool
  mutexUnlockOk : Bool
deriving DecidableEq, Repr

/-- Result of `cpc_set_endpoint_option`: return value, errno the library
assigns, and the file status flags of the endpoint socket after the call. -/
structure SetOptResult where
  ret : Int
  errnoSet : Option Errno
  flagsAfter : Nat
deriving DecidableEq, Repr

/-- Model of `cpc_set_endpoint_option` (sl_cpc.c lines 878-981).  `flags0`
is the file status flag word of the endpoint socket before the call
(as returned by `fcntl(F_GETFL)`), `optvalBool` the boolean pointed to by
`optval` when the option is `CPC_OPTION_BLOCKING`. -/
def cpc_set_endpoint_option (ep : Option EndpointState) (flags0 : Nat)
    (option : CpcOption) (optvalNull : Bool) (optvalBool : Bool)
    (optlen : Nat) (env : SetOptEnv) : SetOptResult :=
  if option = CpcOption.optionNone ∨ ep = none ∨ optvalNull then
    { ret := -1, errnoSet := some Errno.EINVAL, flagsAfter := flags0 }
  else
    match option with
    | CpcOption.rxTimeout =>
      if optlen ≠ sizeof_cpc_timeval then
        { ret := -1, errnoSet := some Errno.EINVAL, flagsAfter := flags0 }
      else if ¬ env.setsockoptOk then
        { ret := -1, errnoSet := none, flagsAfter := flags0 }
      else
        { ret := 0, errnoSet := none, flagsAfter := flags0 }
    | CpcOption.txTimeout =>
      if optlen ≠ sizeof_cpc_timeval then
        { ret := -1, errnoSet := some Errno.EINVAL, flagsAfter := flags0 }
      else if ¬ env.setsockoptOk then
        { ret := -1, errnoSet := none, flagsAfter := flags0 }
      else
        { ret := 0, errnoSet := none, flagsAfter := flags0 }
    | CpcOption.blocking =>
      if optlen ≠ sizeof_bool then
        { ret := -1, errnoSet := some Errno.EINVAL, flagsAfter := flags0 }
      else if ¬ env.mutexLockOk then
        { ret := -1, errnoSet := none, flagsAfter := flags0 }
      else if ¬ env.fcntlGetOk then
        { ret := -1, errnoSet := none, flagsAfter := flags0 }
      else
        let newFlags :=
          if optvalBool then flags0 &&& NOT_O_NONBLOCK
          else flags0 ||| O_NONBLOCK
        let flags1 := if env.fcntlSetOk then newFlags else flags0
        if ¬ env.mutexUnlockOk then
          { ret := -1, errnoSet := none, flagsAfter := flags1 }
        else if ¬ env.fcntlSetOk then
          { ret := -1, errnoSet := none, flagsAfter := flags1 }
        else
          { ret := 0, errnoSet := none, flagsAfter := flags1 }
    | CpcOption.socketSize =>
      if optlen ≠ sizeof_int then
        { ret := -1, errnoSet := some Errno.EINVAL, flagsAfter := flags0 }
      else if ¬ env.setsockoptOk then
        { ret := -1, errnoSet := none, flagsAfter := flags0 }
      else
        { ret := 0, errnoSet := none, flagsAfter := flags0 }
    | _ =>
      { ret := -1, errnoSet := some Errno.EINVAL, flagsAfter := flags0 }

/-- Syscall outcomes consumed by `cpc_get_endpoint_option`. -/
structure GetOptEnv where
  getsockoptOk : Bool
  fcntlGetOk : Bool
deriving DecidableEq, Repr

/-- Result of `cpc_get_endpoint_option` for the `CPC_OPTION_BLOCKING`
branch: return value, errno the library assigns, the boolean written into
`optval` and the value written into `*optlen`. -/
structure GetOptResult where
  ret : Int
  errnoSet : Option Errno
  optvalBool : Option Bool
  optlenAfter : Nat
deriving DecidableEq, Repr

/-- Model of the `CPC_OPTION_BLOCKING` branch of `cpc_get_endpoint_option`
(sl_cpc.c lines 986-1095, branch at lines 1050-1069).  `flags` is the file
status flag word of the endpoint socket, `optlen0` the value of `*optlen`
on entry; `optvalNull` and `optlenNull` are the NULL checks of the common
prologue. -/
def cpc_get_endpoint_option_blocking (ep : Option EndpointState)
    (flags : Nat) (optvalNull : Bool) (optlenNull : Bool) (optlen0 : Nat)
    (env : GetOptEnv) : GetOptResult :=
  if ep = none ∨ optvalNull ∨ optlenNull then
    { ret := -1, errnoSet := some Errno.EINVAL, optvalBool := none,
      optlenAfter := optlen0 }
  else if optlen0 < sizeof_bool then
    { ret := -1, errnoSet := some Errno.ENOMEM, optvalBool := none,
      optlenAfter := optlen0 }
  else if ¬ env.fcntlGetOk then
    { ret := -1, errnoSet := none, optvalBool := none,
      optlenAfter := sizeof_bool }
  else
    { ret := 0, errnoSet := none,
      optvalBool := some (flags &&& O_NONBLOCK = 0),
      optlenAfter := sizeof_bool }

/-! ### Claims -/

/-- C1 counterexample: with a valid endpoint and buffer, when the daemon-side
connection is lost the socket `recv` reports EOF (0 bytes), and
`cpc_read_endpoint` then returns -1, not 0 as the claim states. -/
theorem c1_counterexample :
    (cpc_read_endpoint (some ⟨3, 7, ⟨4087⟩⟩) false 4087 false ⟨0⟩).ret = -1 ∧
    ¬ (cpc_read_endpoint (some ⟨3, 7, ⟨4087⟩⟩) false 4087 false ⟨0⟩).ret = 0 := by
  decide

/-- C1 amended: for every read on an endpoint whose daemon-side connection is
lost, the socket observes EOF (`recv` returns 0 bytes) and
`cpc_read_endpoint` returns -1 with errno set to ECONNRESET. -/
theorem c1_read_connection_lost (ep : EndpointState) (count : Nat)
    (nb : Bool) (h : SL_CPC_READ_MINIMUM_SIZE ≤ count) :
    cpc_read_endpoint (some ep) false count nb ⟨0⟩ =
      { ret := -1, errnoSet := some Errno.ECONNRESET, recvCalled := true } := by
  have h1 : ¬ count < SL_CPC_READ_MINIMUM_SIZE := Nat.not_lt.2 h
  simp [cpc_read_endpoint, h1]

/-- C1 amended witness at a concrete input. -/
theorem c1_read_connection_lost_witness :
    SL_CPC_READ_MINIMUM_SIZE ≤ 4087 ∧
    cpc_read_endpoint (some ⟨3, 7, ⟨4087⟩⟩) false 4087 false ⟨0⟩ =
      { ret := -1, errnoSet := some Errno.ECONNRESET, recvCalled := true } :=
  ⟨by decide, c1_read_connection_lost ⟨3, 7, ⟨4087⟩⟩ 4087 false (by decide)⟩

/-- C2 counterexample: a first `cpc_close_endpoint` completes with 0 and
clears `endpoint->ptr`; the second call on the same handle then returns -1,
not 0 as the claim states. -/
theorem c2_counterexample :
    (cpc_close_endpoint false (some ⟨3, 7, ⟨4087⟩⟩)
      ⟨true, true, 2, 2, true, true⟩).ret = 0 ∧
    (cpc_close_endpoint false
      (cpc_close_endpoint false (some ⟨3, 7, ⟨4087⟩⟩)
        ⟨true, true, 2, 2, true, true⟩).endpointPtr
      ⟨true, true, 2, 2, true, true⟩).ret = -1 := by
  decide

/-- C2 amended: closing an already-closed endpoint handle
(`endpoint->ptr == NULL`) fails: it returns -1 with errno EINVAL, sends no
close request to the daemon and leaves the handle unchanged
(`ptr` stays NULL). -/
theorem c2_close_already_closed (env : CloseEnv) :
    cpc_close_endpoint false none env =
      { ret := -1, errnoSet := some Errno.EINVAL, endpointPtr := none,
        closeRequestSent := false } := by
  simp [cpc_close_endpoint]

/-- C3 counterexample: with an environment in which every syscall succeeds,
`cpc_open_endpoint` with tx_window_size = 2 (inside the claimed 1..7 range)
returns -1 with errno EINVAL, while the identical call with
tx_window_size = 1 succeeds — so the rejection is on account of the window
size. -/
theorem c3_counterexample :
    (cpc_open_endpoint (some ⟨4087⟩) false "cpcd_0" 3 2
      ⟨true, true, true, 3, 3, true, true, 5, true, 2,
        ExchangeType.openEndpointQuery, true, true⟩).ret = -1 ∧
    (cpc_open_endpoint (some ⟨4087⟩) false "cpcd_0" 3 2
      ⟨true, true, true, 3, 3, true, true, 5, true, 2,
        ExchangeType.openEndpointQuery, true, true⟩).errnoSet
      = some Errno.EINVAL ∧
    (cpc_open_endpoint (some ⟨4087⟩) false "cpcd_0" 3 1
      ⟨true, true, true, 3, 3, true, true, 5, true, 2,
        ExchangeType.openEndpointQuery, true, true⟩).ret = 5 := by
  decide

/-- C3 amended: the library accepts only tx_window_size = 1; every other
requested window size (once the socket path fits) is rejected with errno
EINVAL before any state is touched. -/
theorem c3_window_size_check (handlePtr : Option LibHandle)
    (endpointNull : Bool) (name : String) (id w : Nat) (env : OpenEnv)
    (hpath : (ep_sock_path name id).length < SUN_PATH_SIZE - 1)
    (hw : w ≠ 1) :
    cpc_open_endpoint handlePtr endpointNull name id w env =
      openFail (some Errno.EINVAL) none false none := by
  have h1 : ¬ (ep_sock_path name id).length ≥ SUN_PATH_SIZE - 1 :=
    Nat.not_le.2 hpath
  simp [cpc_open_endpoint, h1, hw]

/-- C3 amended witness at a concrete input. -/
theorem c3_window_size_check_witness :
    (ep_sock_path "cpcd_0" 3).length < SUN_PATH_SIZE - 1 ∧ (2 : Nat) ≠ 1 ∧
    cpc_open_endpoint (some ⟨4087⟩) false "cpcd_0" 3 2
      ⟨true, true, true, 3, 3, true, true, 5, true, 2,
        ExchangeType.openEndpointQuery, true, true⟩ =
      openFail (some Errno.EINVAL) none false none :=
  ⟨by decide, by decide,
   c3_window_size_check (some ⟨4087⟩) false "cpcd_0" 3 2
     ⟨true, true, true, 3, 3, true, true, 5, true, 2,
       ExchangeType.openEndpointQuery, true, true⟩ (by decide) (by decide)⟩

/-- C10: for every call of `cpc_read_endpoint` with a NULL buffer, or with a
count strictly below SL_CPC_READ_MINIMUM_SIZE, or with a NULL endpoint, the
call returns -1 with errno EINVAL and never calls `recv`. -/
theorem c10_read_argument_validation (ep : Option EndpointState)
    (bufferNull : Bool) (count : Nat) (nb : Bool) (env : ReadEnv)
    (h : bufferNull = true ∨ count < SL_CPC_READ_MINIMUM_SIZE ∨ ep = none) :
    cpc_read_endpoint ep bufferNull count nb env =
      { ret := -1, errnoSet := some Errno.EINVAL, recvCalled := false } := by
  rcases h with h | h | h <;> simp [cpc_read_endpoint, h]

/-- C10 witness at a concrete input (count 4086, one below the minimum). -/
theorem c10_read_argument_validation_witness :
    ((false : Bool) = true ∨ (4086 : Nat) < SL_CPC_READ_MINIMUM_SIZE ∨
      (some ⟨1, 2, ⟨10⟩⟩ : Option EndpointState) = none) ∧
    cpc_read_endpoint (some ⟨1, 2, ⟨10⟩⟩) false 4086 false ⟨7⟩ =
      { ret := -1, errnoSet := some Errno.EINVAL, recvCalled := false } :=
  ⟨Or.inr (Or.inl (by decide)),
   c10_read_argument_validation (some ⟨1, 2, ⟨10⟩⟩) false 4086 false ⟨7⟩
     (Or.inr (Or.inl (by decide)))⟩


/-- C4: whenever the daemon's reply to the version query carries a version
byte different from LIBRARY_API_VERSION, `check_version` returns false with
errno set to ELIBBAD, and `cpc_init` (reaching the version exchange after
all earlier steps succeeded) returns -1 with that errno and stores no
handle. -/
theorem c4_version_mismatch (g : LibGlobals) (env : InitEnv) (name : String)
    (iname : Option String) (tracing : Bool) (cb : Option Nat)
    (hsend : ¬ env.versionIO.sendRet < (version_query_len : Int))
    (hrecv : env.versionIO.recvRet = (version_query_len : Int))
    (hver : env.versionIO.replyVersion ≠ LIBRARY_API_VERSION)
    (hname : g.saved_instance_name = some name)
    (hpath : (ctrl_sock_path name).length < SUN_PATH_SIZE - 1)
    (haccess : env.accessOk = true) (hmalloc : env.mallocOk = true)
    (hsock : env.socketFd ≠ 0) (hconn : env.connectOk = true)
    (hso : env.setsockoptOk = true)
    (hpid : ¬ env.setPidSendRet < (set_pid_query_len : Int))
    (hmw1 : ¬ env.maxWriteIO.sendRet < (max_write_query_len : Int))
    (hmw2 : env.maxWriteIO.recvRet = (max_write_query_len : Int)) :
    check_version env.versionIO =
      { ok := false, errnoSet := some Errno.ELIBBAD } ∧
    (cpc_init g env false iname tracing cb).ret = -1 ∧
    (cpc_init g env false iname tracing cb).handle = none ∧
    (cpc_init g env false iname tracing cb).errnoSet =
      some Errno.ELIBBAD := by
  have hcv : check_version env.versionIO =
      { ok := false, errnoSet := some Errno.ELIBBAD } := by
    simp [check_version, hsend, hrecv, hver]
  have h1 : ¬ (ctrl_sock_path name).length ≥ SUN_PATH_SIZE - 1 :=
    Nat.not_le.2 hpath
  have hgmw : get_max_write env.maxWriteIO =
      { ret := (env.maxWriteIO.replyMaxWrite : Int), errnoSet := none } := by
    simp [get_max_write, hmw1, hmw2]
  have hret : ¬ (get_max_write env.maxWriteIO).ret < 0 := by
    rw [hgmw]
    exact Int.not_lt.2 (Int.natCast_nonneg _)
  have hpid2 : ¬ set_pid env.setPidSendRet < 0 := by
    simp [set_pid, hpid]
  refine ⟨hcv, ?_⟩
  simp [cpc_init, hname, cpc_init_after_name, h1, haccess, hmalloc, hsock,
    hconn, hso, hpid2, hret, hcv, initFail]

/-- C4 witness at a concrete input: the reply carries version byte 5 while
the library is at version 2. -/
theorem c4_version_mismatch_witness :
    check_version ⟨3, 3, 5⟩ =
      { ok := false, errnoSet := some Errno.ELIBBAD } ∧
    (cpc_init ⟨false, some "cpcd_0", none⟩
      ⟨true, true, true, 4, true, true, 6, ⟨6, 6, 4087⟩, ⟨3, 3, 5⟩, true⟩
      false (some "cpcd_0") false none).ret = -1 ∧
    (cpc_init ⟨false, some "cpcd_0", none⟩
      ⟨true, true, true, 4, true, true, 6, ⟨6, 6, 4087⟩, ⟨3, 3, 5⟩, true⟩
      false (some "cpcd_0") false none).handle = none ∧
    (cpc_init ⟨false, some "cpcd_0", none⟩
      ⟨true, true, true, 4, true, true, 6, ⟨6, 6, 4087⟩, ⟨3, 3, 5⟩, true⟩
      false (some "cpcd_0") false none).errnoSet = some Errno.ELIBBAD :=
  c4_version_mismatch ⟨false, some "cpcd_0", none⟩
    ⟨true, true, true, 4, true, true, 6, ⟨6, 6, 4087⟩, ⟨3, 3, 5⟩, true⟩
    "cpcd_0" (some "cpcd_0") false none
    (by decide) (by decide) (by decide) (by decide) (by decide) (by decide)
    (by decide) (by decide) (by decide) (by decide) (by decide) (by decide)
    (by decide)

/-- C5: once `cpc_open_endpoint` has connected to the endpoint socket, the
open succeeds only if the first message received is exactly
`sizeof(cpcd_exchange_buffer_t)` bytes (a payload-free ack) of type
OpenEndpointQuery; for every other first message (wrong size — including a
closed connection reading 0 bytes — or wrong type) the endpoint socket is
closed again and the call returns -1 storing no endpoint. -/
theorem c5_open_ack_validation (lh : LibHandle) (name : String)
    (id w : Nat) (env : OpenEnv)
    (hpath : (ep_sock_path name id).length < SUN_PATH_SIZE - 1)
    (hw : w = 1) (hid : id ≠ 0)
    (hme : env.mallocEpOk = true) (hmq : env.mallocQueryOk = true)
    (hml : env.mutexLockOk = true)
    (hcs : ¬ env.ctrlSendRet < (open_query_len : Int))
    (hmu : env.mutexUnlockOk = true)
    (hcr : env.ctrlRecvRet = (open_query_len : Int))
    (hco : env.canOpenReply = true)
    (hsf : env.socketFd ≠ 0) (hcon : env.connectOk = true)
    (hsso : env.setsockoptOk = true) (hmi : env.mutexInitOk = true) :
    ((env.ackRecvRet ≠ (sizeof_cpcd_exchange_buffer : Int) ∨
        env.ackType ≠ ExchangeType.openEndpointQuery) →
      (cpc_open_endpoint (some lh) false name id w env).ret = -1 ∧
      (cpc_open_endpoint (some lh) false name id w env).epSocketClosed
        = true ∧
      (cpc_open_endpoint (some lh) false name id w env).endpointSet
        = none) ∧
    ((env.ackRecvRet = (sizeof_cpcd_exchange_buffer : Int) ∧
        env.ackType = ExchangeType.openEndpointQuery) →
      (cpc_open_endpoint (some lh) false name id w env).ret
        = env.socketFd ∧
      (cpc_open_endpoint (some lh) false name id w env).endpointSet
        = some ⟨id, env.socketFd, lh⟩ ∧
      (cpc_open_endpoint (some lh) false name id w env).epSocketClosed
        = false) := by
  have h1 : ¬ (ep_sock_path name id).length ≥ SUN_PATH_SIZE - 1 :=
    Nat.not_le.2 hpath
  subst hw
  constructor
  · intro hack
    rcases hack with h | h <;>
      simp [cpc_open_endpoint, h1, hid, hme, hmq, hml, hcs, hmu, hcr, hco,
        hsf, hcon, hsso, hmi, h, openFail]
  · rintro ⟨ha, hb⟩
    simp [cpc_open_endpoint, h1, hid, hme, hmq, hml, hcs, hmu, hcr, hco,
      hsf, hcon, hsso, hmi, ha, hb, openFail]

/-- C5 witness at a concrete input: a first message of 3 bytes (instead of
the 2-byte payload-free ack) makes the open close the socket and fail. -/
theorem c5_open_ack_validation_witness :
    (cpc_open_endpoint (some ⟨4087⟩) false "cpcd_0" 3 1
      ⟨true, true, true, 3, 3, true, true, 5, true, 3,
        ExchangeType.openEndpointQuery, true, true⟩).ret = -1 ∧
    (cpc_open_endpoint (some ⟨4087⟩) false "cpcd_0" 3 1
      ⟨true, true, true, 3, 3, true, true, 5, true, 3,
        ExchangeType.openEndpointQuery, true, true⟩).epSocketClosed
      = true ∧
    (cpc_open_endpoint (some ⟨4087⟩) false "cpcd_0" 3 1
      ⟨true, true, true, 3, 3, true, true, 5, true, 3,
        ExchangeType.openEndpointQuery, true, true⟩).endpointSet = none :=
  (c5_open_ack_validation ⟨4087⟩ "cpcd_0" 3 1
    ⟨true, true, true, 3, 3, true, true, 5, true, 3,
      ExchangeType.openEndpointQuery, true, true⟩
    (by decide) (by decide) (by decide) (by decide) (by decide) (by decide)
    (by decide) (by decide) (by decide) (by decide) (by decide) (by decide)
    (by decide) (by decide)).1 (Or.inl (by decide))

/-- Inversion helper: every run of `cpc_open_endpoint` either fails to store
an endpoint, or has installed DEFAULT_ENDPOINT_SOCKET_SIZE as the SO_SNDBUF
size of the endpoint socket. -/
theorem cpc_open_endpoint_sndbuf_inv (hp : Option LibHandle) (en : Bool)
    (name : String) (id w : Nat) (env : OpenEnv) :
    (cpc_open_endpoint hp en name id w env).endpointSet = none ∨
    (cpc_open_endpoint hp en name id w env).sndbufSet =
      some DEFAULT_ENDPOINT_SOCKET_SIZE := by
  by_cases h1 : (ep_sock_path name id).length ≥ SUN_PATH_SIZE - 1
  · exact Or.inl (by simp [cpc_open_endpoint, openFail, h1])
  by_cases h2 : w ≠ 1
  · exact Or.inl (by simp [cpc_open_endpoint, openFail, h1, h2])
  by_cases h3 : id = 0 ∨ en = true ∨ hp = none
  · refine Or.inl ?_
    rcases h3 with h3 | h3 | h3 <;>
      simp [cpc_open_endpoint, openFail, h1, h2, h3,
        apply_ite OpenResult.endpointSet]
  have hid : ¬ id = 0 := fun hc => h3 (Or.inl hc)
  have hen : ¬ en = true := fun hc => h3 (Or.inr (Or.inl hc))
  have hhp : ¬ hp = none := fun hc => h3 (Or.inr (Or.inr hc))
  rcases hp with _ | lh
  · exact absurd rfl hhp
  by_cases h4 : env.mallocEpOk = true
  case neg =>
    exact Or.inl (by simp [cpc_open_endpoint, openFail, h1, h2, hid, hen, h4])
  by_cases h5 : env.mallocQueryOk = true
  case neg =>
    exact Or.inl (by
      simp [cpc_open_endpoint, openFail, h1, h2, hid, hen, h4, h5])
  by_cases h6 : env.mutexLockOk = true
  case neg =>
    exact Or.inl (by
      simp [cpc_open_endpoint, openFail, h1, h2, hid, hen, h4, h5, h6])
  by_cases h7 : env.ctrlSendRet < (open_query_len : Int)
  case pos =>
    exact Or.inl (by
      simp [cpc_open_endpoint, openFail, h1, h2, hid, hen, h4, h5, h6, h7])
  by_cases h8 : env.mutexUnlockOk = true
  case neg =>
    exact Or.inl (by
      simp [cpc_open_endpoint, openFail, h1, h2, hid, hen, h4, h5, h6, h7,
        h8])
  by_cases h9 : env.ctrlRecvRet = (open_query_len : Int)
  case neg =>
    exact Or.inl (by
      simp [cpc_open_endpoint, openFail, h1, h2, hid, hen, h4, h5, h6, h7,
        h8, h9])
  by_cases h10 : env.canOpenReply = true
  case neg =>
    exact Or.inl (by
      simp [cpc_open_endpoint, openFail, h1, h2, hid, hen, h4, h5, h6, h7,
        h8, h9, h10])
  by_cases h11 : env.socketFd = 0
  case pos =>
    exact Or.inl (by
      simp [cpc_open_endpoint, openFail, h1, h2, hid, hen, h4, h5, h6, h7,
        h8, h9, h10, h11])
  by_cases h12 : env.connectOk = true
  case neg =>
    exact Or.inl (by
      simp [cpc_open_endpoint, openFail, h1, h2, hid, hen, h4, h5, h6, h7,
        h8, h9, h10, h11, h12])
  by_cases hA : env.ackRecvRet = (sizeof_cpcd_exchange_buffer : Int)
  case neg =>
    exact Or.inl (by
      simp [cpc_open_endpoint, openFail, h1, h2, hid, hen, h4, h5, h6, h7,
        h8, h9, h10, h11, h12, hA])
  by_cases hB : env.ackType = ExchangeType.openEndpointQuery
  case neg =>
    exact Or.inl (by
      simp [cpc_open_endpoint, openFail, h1, h2, hid, hen, h4, h5, h6, h7,
        h8, h9, h10, h11, h12, hA, hB])
  by_cases h14 : env.setsockoptOk = true
  case neg =>
    exact Or.inl (by
      simp [cpc_open_endpoint, openFail, h1, h2, hid, hen, h4, h5, h6, h7,
        h8, h9, h10, h11, h12, hA, hB, h14])
  by_cases h15 : env.mutexInitOk = true
  case neg =>
    exact Or.inl (by
      simp [cpc_open_endpoint, openFail, h1, h2, hid, hen, h4, h5, h6, h7,
        h8, h9, h10, h11, h12, hA, hB, h14, h15])
  exact Or.inr (by
    simp [cpc_open_endpoint, openFail, h1, h2, hid, hen, h4, h5, h6, h7,
      h8, h9, h10, h11, h12, hA, hB, h14, h15])

/-- C6: the per-endpoint-socket send buffer bound defaults to 4087 bytes and
is installed by every successful `cpc_open_endpoint`; and every write whose
length exceeds the max write size obtained from the daemon during init
returns -1 with errno EINVAL without calling `send`. -/
theorem c6_sndbuf_and_write_bound :
    DEFAULT_ENDPOINT_SOCKET_SIZE = 4087 ∧
    (∀ (hp : Option LibHandle) (en : Bool) (name : String) (id w : Nat)
        (env : OpenEnv),
      (cpc_open_endpoint hp en name id w env).endpointSet ≠ none →
      (cpc_open_endpoint hp en name id w env).sndbufSet =
        some DEFAULT_ENDPOINT_SOCKET_SIZE) ∧
    (∀ (e : EndpointState) (dataNull nb : Bool) (len : Nat) (sendRet : Int),
      len > e.lib_handle.max_write_size →
      cpc_write_endpoint (some e) dataNull len nb sendRet =
        { ret := -1, errnoSet := some Errno.EINVAL,
          sendCalled := false }) := by
  refine ⟨rfl, ?_, ?_⟩
  · intro hp en name id w env h
    rcases cpc_open_endpoint_sndbuf_inv hp en name id w env with h2 | h2
    · exact absurd h2 h
    · exact h2
  · intro e dataNull nb len sendRet h
    have h0 : ¬ len = 0 := by omega
    cases dataNull <;> simp [cpc_write_endpoint, h0, h]

/-- C6 witness at concrete inputs: a successful open installs send buffer
4087; a 11-byte write against a max write size of 10 is rejected. -/
theorem c6_sndbuf_and_write_bound_witness :
    (cpc_open_endpoint (some ⟨4087⟩) false "cpcd_0" 3 1
      ⟨true, true, true, 3, 3, true, true, 5, true, 2,
        ExchangeType.openEndpointQuery, true, true⟩).sndbufSet =
      some DEFAULT_ENDPOINT_SOCKET_SIZE ∧
    cpc_write_endpoint (some ⟨3, 7, ⟨10⟩⟩) false 11 false 11 =
      { ret := -1, errnoSet := some Errno.EINVAL, sendCalled := false } :=
  ⟨c6_sndbuf_and_write_bound.2.1 (some ⟨4087⟩) false "cpcd_0" 3 1
    ⟨true, true, true, 3, 3, true, true, 5, true, 2,
      ExchangeType.openEndpointQuery, true, true⟩ (by decide),
   c6_sndbuf_and_write_bound.2.2 ⟨3, 7, ⟨10⟩⟩ false false 11 11 (by decide)⟩

/-- Helper: unfolding equation of `restart_loop` for a nonempty list. -/
theorem restart_loop_cons (g : LibGlobals) (e : InitEnv)
    (rest : List InitEnv) :
    restart_loop g (e :: rest) =
      (if (cpc_init g e false g.saved_instance_name g.saved_enable_tracing
            g.saved_reset_callback).ret = 0 ∨ rest.isEmpty then
        ((cpc_init g e false g.saved_instance_name g.saved_enable_tracing
            g.saved_reset_callback).ret,
         (cpc_init g e false g.saved_instance_name g.saved_enable_tracing
            g.saved_reset_callback).globals,
         (cpc_init g e false g.saved_instance_name g.saved_enable_tracing
            g.saved_reset_callback).handle, 1)
      else
        ((restart_loop (cpc_init g e false g.saved_instance_name
            g.saved_enable_tracing g.saved_reset_callback).globals rest).1,
         (restart_loop (cpc_init g e false g.saved_instance_name
            g.saved_enable_tracing g.saved_reset_callback).globals rest).2.1,
         (restart_loop (cpc_init g e false g.saved_instance_name
            g.saved_enable_tracing
            g.saved_reset_callback).globals rest).2.2.1,
         (restart_loop (cpc_init g e false g.saved_instance_name
            g.saved_enable_tracing
            g.saved_reset_callback).globals rest).2.2.2 + 1)) := rfl

/-- Helper: `cpc_init_after_name` never changes the global variables. -/
theorem cpc_init_after_name_globals (g : LibGlobals) (env : InitEnv)
    (hN : Bool) (cb : Option Nat) (name : String) :
    (cpc_init_after_name g env hN cb name).globals = g := by
  simp [cpc_init_after_name, initFail, apply_ite InitResult.globals]

/-- Helper: re-running `cpc_init` on the saved parameters leaves the global
variables unchanged (the instance name is already saved, so the strdup step
is skipped). -/
theorem cpc_init_globals_self (g : LibGlobals) (env : InitEnv) (name : String)
    (hn : g.saved_instance_name = some name) :
    (cpc_init g env false g.saved_instance_name g.saved_enable_tracing
      g.saved_reset_callback).globals = g := by
  unfold cpc_init
  simp only [hn]
  rw [cpc_init_after_name_globals, ← hn]

/-- Helper: the retry loop of `cpc_restart` returns 0 exactly when one of the
attempted `cpc_init` calls on the saved parameters returns 0. -/
theorem restart_loop_ret (g : LibGlobals) (name : String)
    (hn : g.saved_instance_name = some name) :
    ∀ l : List InitEnv, l ≠ [] →
    (((restart_loop g l).1 = 0) ↔
      ∃ e ∈ l, (cpc_init g e false g.saved_instance_name
        g.saved_enable_tracing g.saved_reset_callback).ret = 0) := by
  intro l
  induction l with
  | nil => intro h; exact absurd rfl h
  | cons e rest ih =>
    intro _
    rw [restart_loop_cons]
    by_cases hr : (cpc_init g e false g.saved_instance_name
        g.saved_enable_tracing g.saved_reset_callback).ret = 0
    · rw [if_pos (Or.inl hr)]
      constructor
      · intro _
        exact ⟨e, List.mem_cons_self e rest, hr⟩
      · intro _
        exact hr
    · cases rest with
      | nil =>
        have hcond : (cpc_init g e false g.saved_instance_name
            g.saved_enable_tracing g.saved_reset_callback).ret = 0 ∨
            ([] : List InitEnv).isEmpty = true := Or.inr rfl
        rw [if_pos hcond]
        simp [hr]
      | cons e2 rest2 =>
        have hcond : ¬ ((cpc_init g e false g.saved_instance_name
            g.saved_enable_tracing g.saved_reset_callback).ret = 0 ∨
            (e2 :: rest2).isEmpty = true) := by
          simp [hr]
        rw [if_neg hcond]
        rw [cpc_init_globals_self g e name hn]
        have hne : (e2 :: rest2) ≠ ([] : List InitEnv) := by simp
        constructor
        · intro h1
          obtain ⟨x, hx, hp⟩ := (ih hne).1 h1
          exact ⟨x, List.mem_cons_of_mem e hx, hp⟩
        · intro ⟨x, hx, hp⟩
          rcases List.mem_cons.1 hx with hx2 | hx2
          · exact absurd (hx2 ▸ hp) hr
          · exact (ih hne).2 ⟨x, hx2, hp⟩

/-- Helper: the retry loop sleeps once before each attempt, so between 1 and
the number of supplied attempts when the list is nonempty. -/
theorem restart_loop_sleeps :
    ∀ (l : List InitEnv) (g : LibGlobals),
    (restart_loop g l).2.2.2 ≤ l.length ∧
    (l ≠ [] → 1 ≤ (restart_loop g l).2.2.2) := by
  intro l
  induction l with
  | nil =>
    intro g
    exact ⟨Nat.le_refl 0, fun h => absurd rfl h⟩
  | cons e rest ih =>
    intro g
    rw [restart_loop_cons]
    by_cases hcond : (cpc_init g e false g.saved_instance_name
        g.saved_enable_tracing g.saved_reset_callback).ret = 0 ∨
        rest.isEmpty = true
    · rw [if_pos hcond]
      exact ⟨Nat.succ_le_succ (Nat.zero_le rest.length),
        fun _ => Nat.le_refl 1⟩
    · rw [if_neg hcond]
      have hrec := (ih (cpc_init g e false g.saved_instance_name
        g.saved_enable_tracing g.saved_reset_callback).globals).1
      constructor
      · simpa using Nat.succ_le_succ hrec
      · intro _
        exact Nat.le_add_left 1 _

/-- Helper: `cpc_init` always stores the given reset callback in the global
`saved_reset_callback`. -/
theorem cpc_init_saves_callback (g : LibGlobals) (env : InitEnv) (hN : Bool)
    (iname : Option String) (tr : Bool) (cb : Option Nat) :
    (cpc_init g env hN iname tr cb).globals.saved_reset_callback = cb := by
  unfold cpc_init
  cases hgi : g.saved_instance_name with
  | none =>
    by_cases hs : env.strdupOk = true
    · simp only [hgi, hs, if_true]
      rw [cpc_init_after_name_globals]
    · simp [hgi, hs, initFail]
  | some name =>
    simp only [hgi]
    rw [cpc_init_after_name_globals]

/-- Helper: every run of `cpc_init_after_name` either fails with -1 or has
registered the SIGUSR1 handler exactly when a reset callback was given. -/
theorem cpc_init_after_name_signal (g : LibGlobals) (env : InitEnv)
    (hN : Bool) (cb : Option Nat) (name : String) :
    (cpc_init_after_name g env hN cb name).ret = -1 ∨
    (cpc_init_after_name g env hN cb name).signalRegistered = cb.isSome := by
  by_cases h1 : (ctrl_sock_path name).length ≥ SUN_PATH_SIZE - 1
  · exact Or.inl (by simp [cpc_init_after_name, initFail, h1])
  · refine Or.inr ?_
    simp [cpc_init_after_name, initFail, h1,
      apply_ite InitResult.signalRegistered]

/-- Helper: when `cpc_init` does not fail it has registered the SIGUSR1
handler exactly when a reset callback was given. -/
theorem cpc_init_signal_registered (g : LibGlobals) (env : InitEnv)
    (hN : Bool) (iname : Option String) (tr : Bool) (cb : Option Nat) :
    (cpc_init g env hN iname tr cb).ret = -1 ∨
    (cpc_init g env hN iname tr cb).signalRegistered = cb.isSome := by
  unfold cpc_init
  cases hgi : g.saved_instance_name with
  | none =>
    by_cases hs : env.strdupOk = true
    · simp only [hgi, hs, if_true]
      exact cpc_init_after_name_signal _ env hN cb _
    · exact Or.inl (by simp [hgi, hs, initFail])
  | some name =>
    simp only [hgi]
    exact cpc_init_after_name_signal _ env hN cb _

/-- Helper: every run of `cpc_open_endpoint` either never reaches `connect`
on the endpoint socket or connects to exactly the `ep<N>.cpcd.sock` path. -/
theorem cpc_open_endpoint_connect_inv (hp : Option LibHandle) (en : Bool)
    (name : String) (id w : Nat) (env : OpenEnv) :
    (cpc_open_endpoint hp en name id w env).connectPath = none ∨
    (cpc_open_endpoint hp en name id w env).connectPath =
      some (ep_sock_path name id) := by
  by_cases h1 : (ep_sock_path name id).length ≥ SUN_PATH_SIZE - 1
  · exact Or.inl (by simp [cpc_open_endpoint, openFail, h1])
  by_cases h2 : w ≠ 1
  · exact Or.inl (by simp [cpc_open_endpoint, openFail, h1, h2])
  by_cases h3 : id = 0 ∨ en = true ∨ hp = none
  · refine Or.inl ?_
    rcases h3 with h3 | h3 | h3 <;>
      simp [cpc_open_endpoint, openFail, h1, h2, h3,
        apply_ite OpenResult.connectPath]
  have hid : ¬ id = 0 := fun hc => h3 (Or.inl hc)
  have hen : ¬ en = true := fun hc => h3 (Or.inr (Or.inl hc))
  have hhp : ¬ hp = none := fun hc => h3 (Or.inr (Or.inr hc))
  rcases hp with _ | lh
  · exact absurd rfl hhp
  by_cases h4 : env.mallocEpOk = true
  case neg =>
    exact Or.inl (by
      simp [cpc_open_endpoint, openFail, h1, h2, hid, hen, h4])
  by_cases h5 : env.mallocQueryOk = true
  case neg =>
    exact Or.inl (by
      simp [cpc_open_endpoint, openFail, h1, h2, hid, hen, h4, h5])
  by_cases h6 : env.mutexLockOk = true
  case neg =>
    exact Or.inl (by
      simp [cpc_open_endpoint, openFail, h1, h2, hid, hen, h4, h5, h6])
  by_cases h7 : env.ctrlSendRet < (open_query_len : Int)
  case pos =>
    exact Or.inl (by
      simp [cpc_open_endpoint, openFail, h1, h2, hid, hen, h4, h5, h6, h7])
  by_cases h8 : env.mutexUnlockOk = true
  case neg =>
    exact Or.inl (by
      simp [cpc_open_endpoint, openFail, h1, h2, hid, hen, h4, h5, h6, h7,
        h8])
  by_cases h9 : env.ctrlRecvRet = (open_query_len : Int)
  case neg =>
    exact Or.inl (by
      simp [cpc_open_endpoint, openFail, h1, h2, hid, hen, h4, h5, h6, h7,
        h8, h9])
  by_cases h10 : env.canOpenReply = true
  case neg =>
    exact Or.inl (by
      simp [cpc_open_endpoint, openFail, h1, h2, hid, hen, h4, h5, h6, h7,
        h8, h9, h10])
  by_cases h11 : env.socketFd = 0
  case pos =>
    exact Or.inl (by
      simp [cpc_open_endpoint, openFail, h1, h2, hid, hen, h4, h5, h6, h7,
        h8, h9, h10, h11])
  exact Or.inr (by
    simp [cpc_open_endpoint, openFail, h1, h2, hid, hen, h4, h5, h6, h7,
      h8, h9, h10, h11, apply_ite OpenResult.connectPath])

/-- Helper: every run of `cpc_init_after_name` either never reaches `connect`
on the control socket or connects to exactly the `ctrl.cpcd.sock` path. -/
theorem cpc_init_after_name_connect (g : LibGlobals) (env : InitEnv)
    (hN : Bool) (cb : Option Nat) (name : String) :
    (cpc_init_after_name g env hN cb name).connectPath = none ∨
    (cpc_init_after_name g env hN cb name).connectPath =
      some (ctrl_sock_path name) := by
  by_cases h1 : (ctrl_sock_path name).length ≥ SUN_PATH_SIZE - 1
  · exact Or.inl (by simp [cpc_init_after_name, initFail, h1])
  by_cases h2 : hN = true
  · exact Or.inl (by simp [cpc_init_after_name, initFail, h1, h2])
  by_cases h3 : env.accessOk = true
  case neg =>
    exact Or.inl (by simp [cpc_init_after_name, initFail, h1, h2, h3])
  by_cases h4 : env.mallocOk = true
  case neg =>
    exact Or.inl (by simp [cpc_init_after_name, initFail, h1, h2, h3, h4])
  by_cases h5 : env.socketFd = 0
  case pos =>
    exact Or.inl (by
      simp [cpc_init_after_name, initFail, h1, h2, h3, h4, h5])
  exact Or.inr (by
    simp [cpc_init_after_name, initFail, h1, h2, h3, h4, h5,
      apply_ite InitResult.connectPath])

/-- Helper lemma for C9: clearing the O_NONBLOCK bit leaves the bit clear. -/
theorem land_not_nonblock_and (x : Nat) :
    (x &&& NOT_O_NONBLOCK) &&& O_NONBLOCK = 0 := by
  rw [Nat.land_assoc]
  have h : NOT_O_NONBLOCK &&& O_NONBLOCK = 0 := by decide
  rw [h]
  simp

/-- Helper lemma for C9: setting the O_NONBLOCK bit leaves the bit set. -/
theorem lor_nonblock_and_ne (x : Nat) :
    (x ||| O_NONBLOCK) &&& O_NONBLOCK ≠ 0 := by
  intro hzero
  have h11 := congrArg (fun n => Nat.testBit n 11) hzero
  simp only [Nat.testBit_land, Nat.testBit_lor] at h11
  have ht : Nat.testBit O_NONBLOCK 11 = true := by decide
  rw [ht] at h11
  simp [Nat.zero_testBit] at h11

/-- C7: on link reset the client re-initializes via the saved parameters:
the SIGUSR1 handler invokes the saved reset callback when one was given;
a non-failing `cpc_init` with a non-NULL reset callback has registered the
handler and saved that callback; and `cpc_restart` (after destroying the old
handle) re-runs `cpc_init` on the saved instance name, tracing flag and
reset callback up to 5 times, sleeping 1 second before each attempt, and
returns 0 exactly when one of the 5 attempts succeeds. -/
theorem c7_restart_reinit (g : LibGlobals) (name : String) (h : LibHandle)
    (env : RestartEnv) (c : Nat)
    (hn : g.saved_instance_name = some name)
    (hclose : env.closeOk = true) (hdestroy : env.mutexDestroyOk = true) :
    (g.saved_reset_callback = some c → SIGUSR1_handler g = some c) ∧
    (∀ (g2 : LibGlobals) (env2 : InitEnv) (hN : Bool) (iname : Option String)
        (tr : Bool),
      (cpc_init g2 env2 hN iname tr (some c)).ret = 0 →
      (cpc_init g2 env2 hN iname tr (some c)).signalRegistered = true ∧
      SIGUSR1_handler (cpc_init g2 env2 hN iname tr (some c)).globals
        = some c) ∧
    ((cpc_restart g (some h) env).ret = 0 ↔
      ∃ e ∈ [env.attempt1, env.attempt2, env.attempt3, env.attempt4,
          env.attempt5],
        (cpc_init g e false g.saved_instance_name g.saved_enable_tracing
          g.saved_reset_callback).ret = 0) ∧
    (cpc_restart g (some h) env).sleeps ≤ 5 ∧
    1 ≤ (cpc_restart g (some h) env).sleeps := by
  have hlist : ([env.attempt1, env.attempt2, env.attempt3, env.attempt4,
      env.attempt5] : List InitEnv) ≠ [] := by simp
  have hret1 : (cpc_restart g (some h) env).ret =
      (restart_loop g [env.attempt1, env.attempt2, env.attempt3,
        env.attempt4, env.attempt5]).1 := by
    simp [cpc_restart, hclose, hdestroy]
  have hsl : (cpc_restart g (some h) env).sleeps =
      (restart_loop g [env.attempt1, env.attempt2, env.attempt3,
        env.attempt4, env.attempt5]).2.2.2 := by
    simp [cpc_restart, hclose, hdestroy]
  refine ⟨?_, ?_, ?_, ?_, ?_⟩
  · intro hcb
    exact hcb
  · intro g2 env2 hN iname tr hret
    rcases cpc_init_signal_registered g2 env2 hN iname tr (some c) with
      hbad | hgood
    · rw [hret] at hbad
      exact absurd hbad (by decide)
    · exact ⟨hgood, cpc_init_saves_callback g2 env2 hN iname tr (some c)⟩
  · rw [hret1]
    exact restart_loop_ret g name hn _ hlist
  · rw [hsl]
    exact (restart_loop_sleeps _ g).1
  · rw [hsl]
    exact (restart_loop_sleeps _ g).2 hlist

/-- C7 witness at a concrete input: the first attempt fails (control socket
missing), the second succeeds. -/
theorem c7_restart_reinit_witness :
    (cpc_restart ⟨false, some "cpcd_0", some 1⟩ (some ⟨4087⟩)
      ⟨true, true,
        ⟨true, false, true, 4, true, true, 6, ⟨6, 6, 4087⟩, ⟨3, 3, 2⟩, true⟩,
        ⟨true, true, true, 4, true, true, 6, ⟨6, 6, 4087⟩, ⟨3, 3, 2⟩, true⟩,
        ⟨true, false, true, 4, true, true, 6, ⟨6, 6, 4087⟩, ⟨3, 3, 2⟩, true⟩,
        ⟨true, false, true, 4, true, true, 6, ⟨6, 6, 4087⟩, ⟨3, 3, 2⟩, true⟩,
        ⟨true, false, true, 4, true, true, 6, ⟨6, 6, 4087⟩, ⟨3, 3, 2⟩,
          true⟩⟩).sleeps ≤ 5 ∧
    1 ≤ (cpc_restart ⟨false, some "cpcd_0", some 1⟩ (some ⟨4087⟩)
      ⟨true, true,
        ⟨true, false, true, 4, true, true, 6, ⟨6, 6, 4087⟩, ⟨3, 3, 2⟩, true⟩,
        ⟨true, true, true, 4, true, true, 6, ⟨6, 6, 4087⟩, ⟨3, 3, 2⟩, true⟩,
        ⟨true, false, true, 4, true, true, 6, ⟨6, 6, 4087⟩, ⟨3, 3, 2⟩, true⟩,
        ⟨true, false, true, 4, true, true, 6, ⟨6, 6, 4087⟩, ⟨3, 3, 2⟩, true⟩,
        ⟨true, false, true, 4, true, true, 6, ⟨6, 6, 4087⟩, ⟨3, 3, 2⟩,
          true⟩⟩).sleeps :=
  ⟨(c7_restart_reinit ⟨false, some "cpcd_0", some 1⟩ "cpcd_0" ⟨4087⟩
      ⟨true, true,
        ⟨true, false, true, 4, true, true, 6, ⟨6, 6, 4087⟩, ⟨3, 3, 2⟩, true⟩,
        ⟨true, true, true, 4, true, true, 6, ⟨6, 6, 4087⟩, ⟨3, 3, 2⟩, true⟩,
        ⟨true, false, true, 4, true, true, 6, ⟨6, 6, 4087⟩, ⟨3, 3, 2⟩, true⟩,
        ⟨true, false, true, 4, true, true, 6, ⟨6, 6, 4087⟩, ⟨3, 3, 2⟩, true⟩,
        ⟨true, false, true, 4, true, true, 6, ⟨6, 6, 4087⟩, ⟨3, 3, 2⟩,
          true⟩⟩ 1 rfl rfl rfl).2.2.2.1,
   (c7_restart_reinit ⟨false, some "cpcd_0", some 1⟩ "cpcd_0" ⟨4087⟩
      ⟨true, true,
        ⟨true, false, true, 4, true, true, 6, ⟨6, 6, 4087⟩, ⟨3, 3, 2⟩, true⟩,
        ⟨true, true, true, 4, true, true, 6, ⟨6, 6, 4087⟩, ⟨3, 3, 2⟩, true⟩,
        ⟨true, false, true, 4, true, true, 6, ⟨6, 6, 4087⟩, ⟨3, 3, 2⟩, true⟩,
        ⟨true, false, true, 4, true, true, 6, ⟨6, 6, 4087⟩, ⟨3, 3, 2⟩, true⟩,
        ⟨true, false, true, 4, true, true, 6, ⟨6, 6, 4087⟩, ⟨3, 3, 2⟩,
          true⟩⟩ 1 rfl rfl rfl).2.2.2.2⟩

/-- C8: the library uses the well-known socket paths: `cpc_init` builds
`<socket folder>/cpcd/<instance>/ctrl.cpcd.sock` and connects (when it
connects at all) to exactly that path, failing with ERANGE when the path
does not fit the sockaddr buffer; `cpc_open_endpoint` does the same with
`<socket folder>/cpcd/<instance>/ep<N>.cpcd.sock`. -/
theorem c8_socket_paths :
    (∀ name : String, ctrl_sock_path name =
      "/dev/shm/cpcd/" ++ name ++ "/ctrl.cpcd.sock") ∧
    (∀ (name : String) (id : Nat), ep_sock_path name id =
      "/dev/shm/cpcd/" ++ name ++ "/ep" ++ toString id ++ ".cpcd.sock") ∧
    (∀ (g : LibGlobals) (env : InitEnv) (hN : Bool) (iname : Option String)
        (tr : Bool) (cb : Option Nat) (name : String),
      g.saved_instance_name = some name →
      (cpc_init g env hN iname tr cb).connectPath = none ∨
      (cpc_init g env hN iname tr cb).connectPath =
        some (ctrl_sock_path name)) ∧
    (∀ (g : LibGlobals) (env : InitEnv) (hN : Bool) (iname : Option String)
        (tr : Bool) (cb : Option Nat) (name : String),
      g.saved_instance_name = some name →
      (ctrl_sock_path name).length ≥ SUN_PATH_SIZE - 1 →
      (cpc_init g env hN iname tr cb).ret = -1 ∧
      (cpc_init g env hN iname tr cb).errnoSet = some Errno.ERANGE) ∧
    (∀ (hp : Option LibHandle) (en : Bool) (name : String) (id w : Nat)
        (env : OpenEnv),
      (cpc_open_endpoint hp en name id w env).connectPath = none ∨
      (cpc_open_endpoint hp en name id w env).connectPath =
        some (ep_sock_path name id)) ∧
    (∀ (hp : Option LibHandle) (en : Bool) (name : String) (id w : Nat)
        (env : OpenEnv),
      (ep_sock_path name id).length ≥ SUN_PATH_SIZE - 1 →
      (cpc_open_endpoint hp en name id w env).ret = -1 ∧
      (cpc_open_endpoint hp en name id w env).errnoSet =
        some Errno.ERANGE) := by
  refine ⟨fun name => rfl, fun name id => rfl, ?_, ?_, ?_, ?_⟩
  · intro g env hN iname tr cb name hn
    unfold cpc_init
    simp only [hn]
    exact cpc_init_after_name_connect _ env hN cb name
  · intro g env hN iname tr cb name hn hlen
    unfold cpc_init
    simp only [hn]
    constructor <;> simp [cpc_init_after_name, initFail, hlen]
  · intro hp en name id w env
    exact cpc_open_endpoint_connect_inv hp en name id w env
  · intro hp en name id w env hlen
    constructor <;> simp [cpc_open_endpoint, openFail, hlen]

/-- C8 witness at concrete inputs: a 80-character instance name makes the
endpoint socket path exceed the sockaddr buffer and the open fails with
ERANGE; the default instance name gives the expected control socket path. -/
theorem c8_socket_paths_witness :
    ctrl_sock_path "cpcd_0" = "/dev/shm/cpcd/cpcd_0/ctrl.cpcd.sock" ∧
    (ep_sock_path
      "aaaaaaaaaaaaaaaaaaaaaaaaaaaaaaaaaaaaaaaaaaaaaaaaaaaaaaaaaaaaaaaaaaaaaaaaaaaaaaaa"
      3).length ≥ SUN_PATH_SIZE - 1 ∧
    (cpc_open_endpoint (some ⟨4087⟩) false
      "aaaaaaaaaaaaaaaaaaaaaaaaaaaaaaaaaaaaaaaaaaaaaaaaaaaaaaaaaaaaaaaaaaaaaaaaaaaaaaaa"
      3 1
      ⟨true, true, true, 3, 3, true, true, 5, true, 2,
        ExchangeType.openEndpointQuery, true, true⟩).ret = -1 ∧
    (cpc_open_endpoint (some ⟨4087⟩) false
      "aaaaaaaaaaaaaaaaaaaaaaaaaaaaaaaaaaaaaaaaaaaaaaaaaaaaaaaaaaaaaaaaaaaaaaaaaaaaaaaa"
      3 1
      ⟨true, true, true, 3, 3, true, true, 5, true, 2,
        ExchangeType.openEndpointQuery, true, true⟩).errnoSet =
      some Errno.ERANGE :=
  ⟨(c8_socket_paths.1 "cpcd_0").trans rfl,
   by decide,
   (c8_socket_paths.2.2.2.2.2 (some ⟨4087⟩) false
      "aaaaaaaaaaaaaaaaaaaaaaaaaaaaaaaaaaaaaaaaaaaaaaaaaaaaaaaaaaaaaaaaaaaaaaaaaaaaaaaa"
      3 1
      ⟨true, true, true, 3, 3, true, true, 5, true, 2,
        ExchangeType.openEndpointQuery, true, true⟩ (by decide)).1,
   (c8_socket_paths.2.2.2.2.2 (some ⟨4087⟩) false
      "aaaaaaaaaaaaaaaaaaaaaaaaaaaaaaaaaaaaaaaaaaaaaaaaaaaaaaaaaaaaaaaaaaaaaaaaaaaaaaaa"
      3 1
      ⟨true, true, true, 3, 3, true, true, 5, true, 2,
        ExchangeType.openEndpointQuery, true, true⟩ (by decide)).2⟩

/-- C9: blocking-mode option round-trip: a successful
`cpc_set_endpoint_option(CPC_OPTION_BLOCKING, b)` clears O_NONBLOCK exactly
when b is true, and a following `cpc_get_endpoint_option(CPC_OPTION_BLOCKING)`
reports b again with `*optlen` set to sizeof(bool). -/
theorem c9_blocking_roundtrip (e : EndpointState) (flags0 : Nat) (b : Bool)
    (senv : SetOptEnv) (genv : GetOptEnv) (optlen0 : Nat)
    (hml : senv.mutexLockOk = true) (hfg : senv.fcntlGetOk = true)
    (hfs : senv.fcntlSetOk = true) (hmu : senv.mutexUnlockOk = true)
    (hgf : genv.fcntlGetOk = true) (hol : sizeof_bool ≤ optlen0) :
    (cpc_set_endpoint_option (some e) flags0 CpcOption.blocking false b
      sizeof_bool senv).ret = 0 ∧
    cpc_get_endpoint_option_blocking (some e)
      (cpc_set_endpoint_option (some e) flags0 CpcOption.blocking false b
        sizeof_bool senv).flagsAfter false false optlen0 genv =
      { ret := 0, errnoSet := none, optvalBool := some b,
        optlenAfter := sizeof_bool } := by
  have hol2 : ¬ optlen0 < sizeof_bool := Nat.not_lt.2 hol
  cases b with
  | true =>
    have hflags : (cpc_set_endpoint_option (some e) flags0 CpcOption.blocking
        false true sizeof_bool senv).flagsAfter =
        flags0 &&& NOT_O_NONBLOCK := by
      simp [cpc_set_endpoint_option, hml, hfg, hfs, hmu]
    have hz : (flags0 &&& NOT_O_NONBLOCK) &&& O_NONBLOCK = 0 :=
      land_not_nonblock_and flags0
    constructor
    · simp [cpc_set_endpoint_option, hml, hfg, hfs, hmu]
    · rw [hflags]
      simp [cpc_get_endpoint_option_blocking, hgf, hol2, hz]
  | false =>
    have hflags : (cpc_set_endpoint_option (some e) flags0 CpcOption.blocking
        false false sizeof_bool senv).flagsAfter =
        flags0 ||| O_NONBLOCK := by
      simp [cpc_set_endpoint_option, hml, hfg, hfs, hmu]
    have hne : (flags0 ||| O_NONBLOCK) &&& O_NONBLOCK ≠ 0 :=
      lor_nonblock_and_ne flags0
    constructor
    · simp [cpc_set_endpoint_option, hml, hfg, hfs, hmu]
    · rw [hflags]
      simp [cpc_get_endpoint_option_blocking, hgf, hol2, hne]

/-- C9 witness at a concrete input: initial flags 2, set blocking to true,
get reports true with optlen 1. -/
theorem c9_blocking_roundtrip_witness :
    (cpc_set_endpoint_option (some ⟨5, 9, ⟨4087⟩⟩) 2 CpcOption.blocking false
      true sizeof_bool ⟨true, true, true, true, true⟩).ret = 0 ∧
    cpc_get_endpoint_option_blocking (some ⟨5, 9, ⟨4087⟩⟩)
      (cpc_set_endpoint_option (some ⟨5, 9, ⟨4087⟩⟩) 2 CpcOption.blocking
        false true sizeof_bool ⟨true, true, true, true, true⟩).flagsAfter
      false false 1 ⟨true, true⟩ =
      { ret := 0, errnoSet := none, optvalBool := some true,
        optlenAfter := sizeof_bool } :=
  c9_blocking_roundtrip ⟨5, 9, ⟨4087⟩⟩ 2 true ⟨true, true, true, true, true⟩
    ⟨true, true⟩ 1 rfl rfl rfl rfl rfl (by decide)

end Cpc
